import Mathlib

/-!
A shallow embedding of the `godot_scene_loader` repository's physics
instantiation core (crates `common` and `rapier_godot_scene_loader`), together
with theorems checking the natural-language specification against it.

Modelling conventions:
* `f32` scalars are modelled as `ℚ`.  Every property proved here is structural
  (branching, indexing, list shapes, exact matrix composition); no property
  depends on floating-point rounding.
* Rust panics (`panic!`, slice-index panics, `Matrix4::from_column_slice`'s
  length assertion, `serde` `unwrap`) are modelled as `Except.error`.
* `HashMap` is modelled as an association list with `List.lookup` (first match
  wins); `HashMap::insert`'s overwriting is modelled by consing the new entry
  in front, which shadows older entries for `lookup`.
* nalgebra's `UnitQuaternion`/`Rotation3` conversion of the upper-left 3×3
  block is a library change of representation; the embedding carries the 3×3
  block itself as the rotation component.
-/

namespace GodotSceneLoader

/-- `serde_json::Value`. -/
inductive Value where
  | null : Value
  | bool (b : Bool) : Value
  | num (q : ℚ) : Value
  | str (s : String) : Value
  | arr (l : List Value) : Value
  | obj (l : List (String × Value)) : Value

/-- `Value::as_bool`. -/
def Value.as_bool : Value → Option Bool
  | .bool b => some b
  | _ => none

/-! ## Data model (`common` crate) -/

/-- `common::entities::physics::CollisionShapeData`. -/
structure CollisionShapeData where
  shape : String
  transform : List ℚ
deriving DecidableEq

/-- `common::entities::physics::StaticBodyData`. -/
structure StaticBodyData where
  transform : List ℚ
deriving DecidableEq

/-- `common::entities::physics::KinematicBodyData`. -/
structure KinematicBodyData where
  transform : List ℚ
  linear_velocity : Option (List ℚ)
deriving DecidableEq

/-- `common::entities::physics::RigidBodyData`. -/
structure RigidBodyData where
  transform : List ℚ
  linear_velocity : Option (List ℚ)
  angular_velocity : Option (List ℚ)
deriving DecidableEq

/-- `common::entities::node::Node3DData`. -/
structure Node3DData where
  transform : List ℚ
deriving DecidableEq

/-- `common::entities::node::CameraData`. -/
structure CameraData where
  transform : List ℚ
deriving DecidableEq

/-- `common::entities::render::MeshInstanceData`. -/
structure MeshInstanceData where
  mesh : String
  visible : Bool
  transform : List ℚ
deriving DecidableEq

/-- `common::entities::render::ModelSceneData`. -/
structure ModelSceneData where
  type_name : String
  data : Value
  transform : List ℚ

/-- `common::resources::physics::BoxCollisionShapeData`. -/
structure BoxCollisionShapeData where
  size : List ℚ
deriving DecidableEq

/-- `common::resources::physics::SphereCollisionShapeData`. -/
structure SphereCollisionShapeData where
  radius : ℚ
deriving DecidableEq

/-- `common::resources::physics::ConcavePolygonCollisionShapeData`. -/
structure ConcavePolygonCollisionShapeData where
  data : List ℚ
deriving DecidableEq

/-- `common::resources::render::SphereMeshData`. -/
structure SphereMeshData where
  radius : ℚ
  material : Option String
deriving DecidableEq

/-- `common::resources::render::BoxMeshData`. -/
structure BoxMeshData where
  size : List ℚ
  material : Option String
deriving DecidableEq

/-- `common::resources::render::ArrayMeshData`. -/
structure ArrayMeshData where
  path : String
deriving DecidableEq

/-- `common::resources::render::Texture2DData`. -/
structure Texture2DData where
  path : String
deriving DecidableEq

/-- `common::resources::render::StandardMaterialData`. -/
structure StandardMaterialData where
  albedo_color : List ℚ
  albedo_texture : Option String
deriving DecidableEq

/-- `common::resources::render::PackedSceneData`. -/
structure PackedSceneData where
  path : String
deriving DecidableEq

/-- `common::EntityData` — the closed entity variant set. -/
inductive EntityData where
  | StaticBody3D (body : StaticBodyData) : EntityData
  | RigidBody3D (body : RigidBodyData) : EntityData
  | KinematicBody3D (body : KinematicBodyData) : EntityData
  | CollisionShape3D (shape : CollisionShapeData) : EntityData
  | ModelScene (body : ModelSceneData) : EntityData
  | MeshInstance3D (body : MeshInstanceData) : EntityData
  | Camera (body : CameraData) : EntityData
  | Node3D (body : Node3DData) : EntityData

/-- `common::ResourceData` — the closed resource variant set. -/
inductive ResourceData where
  | BoxMesh (d : BoxMeshData) : ResourceData
  | SphereMesh (d : SphereMeshData) : ResourceData
  | ArrayMesh (d : ArrayMeshData) : ResourceData
  | StandardMaterial (d : StandardMaterialData) : ResourceData
  | Texture2D (d : Texture2DData) : ResourceData
  | BoxCollisionShape (d : BoxCollisionShapeData) : ResourceData
  | SphereCollisionShape (d : SphereCollisionShapeData) : ResourceData
  | ConcavePolygonCollisionShape (d : ConcavePolygonCollisionShapeData) : ResourceData
  | PackedScene (d : PackedSceneData) : ResourceData
deriving DecidableEq

/-- `common::WorldResource`. -/
structure WorldResource where
  data : ResourceData
deriving DecidableEq

/-- `common::WorldEntity` (nested tree; `children : Option (Vec WorldEntity)`). -/
inductive WorldEntity where
  | mk (name : String) (entity_type : String) (data : EntityData)
       (metadata : List (String × Value)) (children : Option (List WorldEntity)) : WorldEntity

def WorldEntity.name : WorldEntity → String
  | .mk n _ _ _ _ => n

def WorldEntity.entity_type : WorldEntity → String
  | .mk _ t _ _ _ => t

def WorldEntity.data : WorldEntity → EntityData
  | .mk _ _ d _ _ => d

def WorldEntity.metadata : WorldEntity → List (String × Value)
  | .mk _ _ _ m _ => m

def WorldEntity.children : WorldEntity → Option (List WorldEntity)
  | .mk _ _ _ _ c => c

/-- `common::SceneWorld`. -/
structure SceneWorld where
  entities : List WorldEntity
  resources : List (String × WorldResource)

/-! ## nalgebra types used by the loader -/

/-- `nalgebra::Matrix4<f32>` as an entry function (row index, column index). -/
def Matrix4 := Fin 4 → Fin 4 → ℚ

/-- `nalgebra::Matrix3<f32>` (upper-left rotation block). -/
def Matrix3 := Fin 3 → Fin 3 → ℚ

/-- `Matrix4::identity()`. -/
def Matrix4.identity : Matrix4 := fun i j => if i = j then 1 else 0

/-- Matrix multiplication `A * B` on 4×4 matrices. -/
def Matrix4.mul (A B : Matrix4) : Matrix4 :=
  fun i j => A i 0 * B 0 j + A i 1 * B 1 j + A i 2 * B 2 j + A i 3 * B 3 j

/-- `Matrix4::from_column_slice`: column-major fill through
`from_iterator_generic`, which zips the 16 storage slots with the slice and
asserts only that 16 elements were reached — a slice with fewer than 16
elements panics, while a longer slice is silently truncated to its first 16
elements (only indices below 16 are ever read). -/
def Matrix4.fromColumnSlice (x : List ℚ) : Except String Matrix4 :=
  if 16 ≤ x.length then
    .ok (fun i j => x.getD (j.val * 4 + i.val) 0)
  else
    .error "matrix from_column_slice requires 16 elements"

/-- `nalgebra::Vector3<f32>`. -/
structure Vector3 where
  x : ℚ
  y : ℚ
  z : ℚ
deriving DecidableEq

/-- `nalgebra::Point3<f32>`. -/
structure Point3 where
  x : ℚ
  y : ℚ
  z : ℚ
deriving DecidableEq

/-- `nalgebra::Isometry3<f32>`: translation plus rotation (3×3 block form). -/
structure Isometry3 where
  translation : Vector3
  rotation : Matrix3

/-- `rapier_godot_scene_loader::NodeTransform`. -/
structure NodeTransform where
  matrix : Matrix4
  rotation : Matrix3
  translation : Vector3

/-- `NodeTransform::from_matrix`: translation is the 4th column's first three
components; rotation is the upper-left 3×3 block (the source then converts it
through `Rotation3::from_matrix` and `UnitQuaternion::from_rotation_matrix`,
a library representation change carried here as the block itself). -/
def NodeTransform.from_matrix (m : Matrix4) : NodeTransform :=
  { matrix := m
    rotation := fun i j => m i.castSucc j.castSucc
    translation := ⟨m 0 3, m 1 3, m 2 3⟩ }

/-- `From<NodeTransform> for Isometry3<f32>`. -/
def NodeTransform.toIsometry (t : NodeTransform) : Isometry3 :=
  { translation := t.translation, rotation := t.rotation }

/-! ## rapier3d types used by the loader -/

/-- `rapier3d::dynamics::RigidBodyType`. -/
inductive RigidBodyType where
  | Dynamic : RigidBodyType
  | Fixed : RigidBodyType
  | KinematicPositionBased : RigidBodyType
  | KinematicVelocityBased : RigidBodyType
deriving DecidableEq

/-- Handles are indices into the corresponding insertion-ordered sets. -/
abbrev RigidBodyHandle := Nat

abbrev ColliderHandle := Nat

/-- The shape given to a `ColliderBuilder`. -/
inductive ColliderShape where
  | cuboid (hx hy hz : ℚ) : ColliderShape
  | ball (radius : ℚ) : ColliderShape
  | polyline (vertices : List Point3) (indices : Option (List (Nat × Nat))) : ColliderShape
deriving DecidableEq

/-- `rapier3d::geometry::ActiveCollisionTypes`: the loader either leaves the
builder default or sets `ActiveCollisionTypes::all()`. -/
inductive ActiveCollisionTypes where
  | default : ActiveCollisionTypes
  | all : ActiveCollisionTypes
deriving DecidableEq

/-- `rapier3d::pipeline::ActiveEvents`: the loader either leaves the empty
builder default or sets `ActiveEvents::all()`. -/
inductive ActiveEvents where
  | empty : ActiveEvents
  | all : ActiveEvents
deriving DecidableEq

/-- A built `rapier3d::geometry::Collider`, restricted to the attributes the
loader sets. -/
structure Collider where
  shape : ColliderShape
  sensor : Bool
  activeCollisionTypes : ActiveCollisionTypes
  activeEvents : ActiveEvents
  position : Isometry3

/-- `Collider::set_position`. -/
def Collider.set_position (c : Collider) (pos : Isometry3) : Collider :=
  { c with position := pos }

/-- `rapier3d::geometry::ColliderBuilder` (attributes the loader touches). -/
structure ColliderBuilder where
  shape : ColliderShape
  sensor : Bool
  activeCollisionTypes : ActiveCollisionTypes
  activeEvents : ActiveEvents

/-- A fresh builder for a shape: solid, default collision types, no events. -/
def ColliderBuilder.ofShape (s : ColliderShape) : ColliderBuilder :=
  { shape := s, sensor := false, activeCollisionTypes := .default, activeEvents := .empty }

/-- `ColliderBuilder::cuboid` (arguments are half-extents). -/
def ColliderBuilder.cuboid (hx hy hz : ℚ) : ColliderBuilder :=
  .ofShape (.cuboid hx hy hz)

/-- `ColliderBuilder::ball`. -/
def ColliderBuilder.ball (radius : ℚ) : ColliderBuilder :=
  .ofShape (.ball radius)

/-- `ColliderBuilder::polyline`. -/
def ColliderBuilder.polyline (vertices : List Point3)
    (indices : Option (List (Nat × Nat))) : ColliderBuilder :=
  .ofShape (.polyline vertices indices)

/-- `ColliderBuilder::sensor`. -/
def ColliderBuilder.withSensor (b : ColliderBuilder) (s : Bool) : ColliderBuilder :=
  { b with sensor := s }

/-- `ColliderBuilder::active_collision_types`. -/
def ColliderBuilder.withActiveCollisionTypes (b : ColliderBuilder)
    (t : ActiveCollisionTypes) : ColliderBuilder :=
  { b with activeCollisionTypes := t }

/-- `ColliderBuilder::active_events`. -/
def ColliderBuilder.withActiveEvents (b : ColliderBuilder) (e : ActiveEvents) : ColliderBuilder :=
  { b with activeEvents := e }

/-- `ColliderBuilder::build` (built at the identity position). -/
def ColliderBuilder.build (b : ColliderBuilder) : Collider :=
  { shape := b.shape, sensor := b.sensor, activeCollisionTypes := b.activeCollisionTypes
    activeEvents := b.activeEvents
    position := { translation := ⟨0, 0, 0⟩, rotation := fun i j => if i = j then 1 else 0 } }

/-- A `RigidBody` as built by `spawn_body` (`RigidBodyBuilder::new(..).position(..)`). -/
structure RigidBody where
  body_type : RigidBodyType
  position : Isometry3

/-- An entry of the `ColliderSet`: the collider plus its owning body, when it
was inserted with `insert_with_parent`. -/
structure ColliderSetEntry where
  collider : Collider
  parent : Option RigidBodyHandle

/-! ## Physics instantiation (`rapier_godot_scene_loader` crate) -/

/-- `rapier_godot_scene_loader::SpawnedWorldEntityData`. -/
inductive SpawnedWorldEntityData where
  | PhysicsBody (handle : RigidBodyHandle) (body_type : RigidBodyType) : SpawnedWorldEntityData
  | Collider (handle : ColliderHandle) : SpawnedWorldEntityData
  | Node : SpawnedWorldEntityData
deriving DecidableEq

/-- `rapier_godot_scene_loader::SpawnedWorldEntity`. -/
structure SpawnedWorldEntity where
  entity_type : String
  data : SpawnedWorldEntityData
  transform : NodeTransform
  metadata : List (String × Value)

/-- The mutable state threaded through the walk: the `RigidBodySet`, the
`ColliderSet` and the name-indexed result map.  (The `IslandManager` is
created and passed but never consulted by the loader itself.) -/
structure SpawnState where
  bodies : List RigidBody
  colliders : List ColliderSetEntry
  entities : List (String × SpawnedWorldEntity)

/-- `get_entity_transform`: variants handled by the physics loader yield their
transform list, everything else falls to the `_ => None` arm; a yielded list
goes through `Matrix4::from_column_slice` (panics unless 16 elements). -/
def get_entity_transform (entity : WorldEntity) : Except String (Option Matrix4) :=
  let data : Option (List ℚ) :=
    match entity.data with
    | .StaticBody3D body => some body.transform
    | .RigidBody3D body => some body.transform
    | .KinematicBody3D body => some body.transform
    | .CollisionShape3D shape => some shape.transform
    | .Node3D body => some body.transform
    | .ModelScene body => some body.transform
    | _ => none
  match data with
  | none => .ok none
  | some x => (Matrix4.fromColumnSlice x).map some

/-- Rust slice indexing `l[i]` (panics when out of bounds). -/
def listIdx (l : List ℚ) (i : Nat) : Except String ℚ :=
  match l.get? i with
  | some v => .ok v
  | none => .error "index out of bounds"

/-- The vertex loop of the `ConcavePolygonCollisionShape` arm of
`parse_collider`: `for i in (0..data.len()).step_by(3)` pushing
`Point3::new(data[i], data[i+1], data[i+2])`. -/
def polylineVerts (data : List ℚ) (i : Nat) : Except String (List Point3) :=
  if i < data.length then do
    let x ← listIdx data i
    let y ← listIdx data (i + 1)
    let z ← listIdx data (i + 2)
    let rest ← polylineVerts data (i + 3)
    .ok (⟨x, y, z⟩ :: rest)
  else
    .ok []
termination_by data.length - i
decreasing_by omega

/-- The `match &res.data` expression of `parse_collider` building the
`ColliderBuilder`: box sizes are halved per axis, sphere radius is taken
directly, concave polygon data is consumed three floats at a time; any other
resource variant hits `panic!("invalid shape")`. -/
def collider_builder_for (res : WorldResource) : Except String ColliderBuilder :=
  match res.data with
  | .BoxCollisionShape s => do
      let s0 ← listIdx s.size 0
      let s1 ← listIdx s.size 1
      let s2 ← listIdx s.size 2
      Except.ok (ColliderBuilder.cuboid (s0 / 2) (s1 / 2) (s2 / 2))
  | .SphereCollisionShape s => Except.ok (ColliderBuilder.ball s.radius)
  | .ConcavePolygonCollisionShape s => do
      let verts ← polylineVerts s.data 0
      Except.ok (ColliderBuilder.polyline verts none)
  | _ => Except.error "invalid shape"

/-- The sensor block of `parse_collider`: when the metadata holds a boolean
`"sensor"` entry, the builder gets `sensor(value)` plus
`ActiveCollisionTypes::all()` and `ActiveEvents::all()`; otherwise it is left
unchanged. -/
def apply_sensor_metadata (metadata : List (String × Value))
    (collider_builder : ColliderBuilder) : ColliderBuilder :=
  match metadata.lookup "sensor" with
  | some sensor_value =>
    match sensor_value.as_bool with
    | some sensor =>
        ((collider_builder.withSensor sensor).withActiveCollisionTypes
          .all).withActiveEvents .all
    | none => collider_builder
  | none => collider_builder

/-- `parse_collider`: a missing resource yields `None` (via
`get_or_return_val!`); a found resource goes through `collider_builder_for`
and the sensor block. -/
def parse_collider (resources : List (String × WorldResource)) (shape : CollisionShapeData)
    (_parent_body_type : Option RigidBodyType) (metadata : List (String × Value)) :
    Except String (Option Collider) :=
  match resources.lookup shape.shape with
  | none => .ok none
  | some res => do
    let collider_builder ← collider_builder_for res
    .ok (some (apply_sensor_metadata metadata collider_builder).build)

/-- `spawn_body`: build a `RigidBody` of the given type at the transform's
isometry and insert it, returning the handle (the insertion index). -/
def spawn_body (body_type : RigidBodyType) (transform : NodeTransform)
    (bodies : List RigidBody) : RigidBodyHandle × List RigidBody :=
  (bodies.length, bodies ++ [{ body_type := body_type, position := transform.toIsometry }])

/-- `spawn_collision_shape`: when the immediate parent's spawn result is a
`PhysicsBody`, the collider is positioned with the transform relative to the
parent body and inserted with `insert_with_parent`; any other parent result
(or none) yields a free-standing collider at the absolute transform. -/
def spawn_collision_shape (entity : WorldEntity) (shape : CollisionShapeData)
    (absolute_transform : NodeTransform) (relative_transform : Matrix4)
    (parent_data : Option SpawnedWorldEntityData)
    (resources : List (String × WorldResource)) (s : SpawnState) :
    Except String (Option SpawnedWorldEntityData × SpawnState) :=
  match parent_data with
  | some (.PhysicsBody parent_handle parent_body_type) => do
      let copt ← parse_collider resources shape (some parent_body_type) entity.metadata
      match copt with
      | none => .ok (none, s)
      | some collider =>
          let pos := NodeTransform.from_matrix relative_transform
          let collider := collider.set_position pos.toIsometry
          let handle := s.colliders.length
          .ok (some (.Collider handle),
               { s with colliders :=
                   s.colliders ++ [{ collider := collider, parent := some parent_handle }] })
  | _ => do
      let copt ← parse_collider resources shape none entity.metadata
      match copt with
      | none => .ok (none, s)
      | some collider =>
          let collider := collider.set_position absolute_transform.toIsometry
          let handle := s.colliders.length
          .ok (some (.Collider handle),
               { s with colliders :=
                   s.colliders ++ [{ collider := collider, parent := none }] })

/-- `spawn_entity_data`: body variants create a rigid body at the absolute
transform, collision shapes go through `spawn_collision_shape`, everything
else yields no physics object; a produced value is recorded in the result map
under the entity's name. -/
def spawn_entity_data (entity : WorldEntity) (parent_data : Option SpawnedWorldEntityData)
    (absolute_transform : NodeTransform) (relative_transform : Matrix4)
    (resources : List (String × WorldResource)) (s : SpawnState) :
    Except String (Option SpawnedWorldEntityData × SpawnState) := do
  let body_type : Option RigidBodyType :=
    match entity.data with
    | .StaticBody3D _ => some .Fixed
    | .KinematicBody3D _ => some .KinematicVelocityBased
    | .RigidBody3D _ => some .Dynamic
    | _ => none
  let r ←
    match body_type with
    | some bt =>
        let hb := spawn_body bt absolute_transform s.bodies
        Except.ok (some (SpawnedWorldEntityData.PhysicsBody hb.1 bt), { s with bodies := hb.2 })
    | none =>
        match entity.data with
        | .CollisionShape3D shape =>
            spawn_collision_shape entity shape absolute_transform relative_transform
              parent_data resources s
        | _ => Except.ok (none, s)
  match r.1 with
  | some d =>
      .ok (r.1, { r.2 with entities :=
        (entity.name,
         { entity_type := entity.entity_type, data := d, transform := absolute_transform
           metadata := entity.metadata }) :: r.2.entities })
  | none => .ok (r.1, r.2)

mutual

/-- `spawn_entity`: resolve the relative transform (skipping the entity and its
children when none resolves), compose the absolute transform as
`parent_transform * relative_transform`, spawn the entity's physics object and
recurse into children with the absolute transform and this entity's spawn
result as parent context. -/
def spawn_entity (entity : WorldEntity) (parent_transform : Matrix4)
    (parent_data : Option SpawnedWorldEntityData)
    (resources : List (String × WorldResource)) (s : SpawnState) :
    Except String (Option SpawnedWorldEntityData × SpawnState) := do
  let topt ← get_entity_transform entity
  match topt with
  | none => .ok (none, s)
  | some relative_transform => do
    let absolute_transform := parent_transform.mul relative_transform
    let node_transform := NodeTransform.from_matrix absolute_transform
    let r ← spawn_entity_data entity parent_data node_transform relative_transform resources s
    match hc : entity.children with
    | some children => do
        let s2 ← spawn_children children absolute_transform r.1 resources r.2
        .ok (r.1, s2)
    | none => .ok (r.1, r.2)
termination_by sizeOf entity
decreasing_by
  cases entity with
  | mk n t d m c =>
    simp [WorldEntity.children] at hc
    subst hc
    simp
    omega

/-- The `for child in children` loop of `spawn_entity` (also the top-level
entity loop of `load_world_to_rapier`). -/
def spawn_children (children : List WorldEntity) (parent_transform : Matrix4)
    (parent_data : Option SpawnedWorldEntityData)
    (resources : List (String × WorldResource)) (s : SpawnState) :
    Except String SpawnState :=
  match children with
  | [] => .ok s
  | child :: rest => do
      let r ← spawn_entity child parent_transform parent_data resources s
      spawn_children rest parent_transform parent_data resources r.2
termination_by sizeOf children
decreasing_by
  all_goals simp
  omega

end

/-- `load_world_to_rapier`: start from empty sets and walk every top-level
entity with the caller-supplied root transform (identity when absent) and no
parent context. -/
def load_world_to_rapier (world : SceneWorld) (transform : Option Matrix4) :
    Except String SpawnState :=
  spawn_children world.entities (transform.getD Matrix4.identity) none world.resources
    { bodies := [], colliders := [], entities := [] }

/-! ## Helper lemmas -/

/-- Spec-side grouping: consume a flat float list three elements at a time, in
order, as 3D points. -/
def spec_chunks3 : List ℚ → List Point3
  | x :: y :: z :: rest => ⟨x, y, z⟩ :: spec_chunks3 rest
  | _ => []

theorem listIdx_ok (l : List ℚ) (i : Nat) (h : i < l.length) : listIdx l i = .ok l[i] := by
  simp [listIdx, List.get?_eq_getElem?, List.getElem?_eq_getElem h]

theorem listIdx_err (l : List ℚ) (i : Nat) (h : l.length ≤ i) :
    listIdx l i = .error "index out of bounds" := by
  simp [listIdx, List.get?_eq_getElem?, List.getElem?_eq_none h]

theorem polylineVerts_ok : ∀ (n : Nat) (data : List ℚ) (i : Nat), data.length - i = n →
    (data.length - i) % 3 = 0 →
    polylineVerts data i = .ok (spec_chunks3 (data.drop i)) := by
  intro n
  induction n using Nat.strong_induction_on with
  | _ n ih =>
    intro data i hn h3
    rw [polylineVerts]
    by_cases hi : i < data.length
    · have hlen : i + 2 < data.length := by omega
      have h0 : i < data.length := by omega
      have h1 : i + 1 < data.length := by omega
      rw [if_pos hi]
      rw [listIdx_ok data i h0, listIdx_ok data (i+1) h1, listIdx_ok data (i+2) hlen]
      have hrec := ih (data.length - (i + 3)) (by omega) data (i + 3) rfl (by omega)
      rw [hrec]
      simp [Bind.bind, Except.bind]
      rw [List.drop_eq_getElem_cons h0, List.drop_eq_getElem_cons h1,
        List.drop_eq_getElem_cons hlen]
      simp [spec_chunks3]
    · rw [if_neg hi]
      rw [List.drop_eq_nil_of_le (by omega)]
      simp [spec_chunks3]

theorem polylineVerts_err : ∀ (n : Nat) (data : List ℚ) (i : Nat), data.length - i = n →
    i < data.length → (data.length - i) % 3 ≠ 0 →
    polylineVerts data i = .error "index out of bounds" := by
  intro n
  induction n using Nat.strong_induction_on with
  | _ n ih =>
    intro data i hn hi h3
    rw [polylineVerts, if_pos hi]
    by_cases h1 : data.length = i + 1
    · rw [listIdx_ok data i hi, listIdx_err data (i+1) (by omega)]
      simp [Bind.bind, Except.bind]
    · by_cases h2 : data.length = i + 2
      · rw [listIdx_ok data i hi, listIdx_ok data (i+1) (by omega),
          listIdx_err data (i+2) (by omega)]
        simp [Bind.bind, Except.bind]
      · have hlen : i + 2 < data.length := by omega
        rw [listIdx_ok data i hi, listIdx_ok data (i+1) (by omega), listIdx_ok data (i+2) hlen]
        have hrec := ih (data.length - (i+3)) (by omega) data (i+3) rfl (by omega) (by omega)
        rw [hrec]
        simp [Bind.bind, Except.bind]

theorem spawn_children_nil (pt : Matrix4) (pd : Option SpawnedWorldEntityData)
    (rs : List (String × WorldResource)) (s : SpawnState) :
    spawn_children [] pt pd rs s = .ok s := by
  rw [spawn_children]

theorem spawn_children_cons (c : WorldEntity) (rest : List WorldEntity) (pt : Matrix4)
    (pd : Option SpawnedWorldEntityData) (rs : List (String × WorldResource)) (s : SpawnState) :
    spawn_children (c :: rest) pt pd rs s =
      match spawn_entity c pt pd rs s with
      | .error msg => .error msg
      | .ok r => spawn_children rest pt pd rs r.2 := by
  rw [spawn_children]
  cases spawn_entity c pt pd rs s <;> simp [Bind.bind, Except.bind]

theorem spawn_entity_eq (e : WorldEntity) (pt : Matrix4) (pd : Option SpawnedWorldEntityData)
    (rs : List (String × WorldResource)) (s : SpawnState) :
    spawn_entity e pt pd rs s =
      match get_entity_transform e with
      | .error msg => .error msg
      | .ok none => .ok (none, s)
      | .ok (some rel) =>
        match spawn_entity_data e pd (NodeTransform.from_matrix (pt.mul rel)) rel rs s with
        | .error msg => .error msg
        | .ok r =>
          match e.children with
          | some cs => (spawn_children cs (pt.mul rel) r.1 rs r.2).map fun s2 => (r.1, s2)
          | none => .ok r := by
  rw [spawn_entity]
  cases get_entity_transform e with
  | error msg => simp [Bind.bind, Except.bind]
  | ok topt =>
    cases topt with
    | none => simp [Bind.bind, Except.bind]
    | some rel =>
      simp only [Bind.bind, Except.bind]
      cases spawn_entity_data e pd (NodeTransform.from_matrix (pt.mul rel)) rel rs s with
      | error m => simp
      | ok r =>
        simp only []
        cases hc : e.children with
        | none => simp
        | some cs => cases spawn_children cs (pt.mul rel) r.1 rs r.2 <;> simp [Except.map]

theorem parse_collider_missing (resources : List (String × WorldResource))
    (shape : CollisionShapeData) (pbt : Option RigidBodyType) (md : List (String × Value))
    (h : resources.lookup shape.shape = none) :
    parse_collider resources shape pbt md = .ok none := by
  simp [parse_collider, h]

theorem parse_collider_found (resources : List (String × WorldResource))
    (shape : CollisionShapeData) (pbt : Option RigidBodyType) (md : List (String × Value))
    (res : WorldResource) (h : resources.lookup shape.shape = some res) :
    parse_collider resources shape pbt md =
      (collider_builder_for res).map fun cb => some (apply_sensor_metadata md cb).build := by
  rw [parse_collider, h]
  cases hcb : collider_builder_for res <;>
    simp [hcb, Bind.bind, Except.bind, Except.map]

theorem collider_builder_for_defaults (res : WorldResource) (cb : ColliderBuilder)
    (h : collider_builder_for res = .ok cb) :
    cb.sensor = false ∧ cb.activeCollisionTypes = .default ∧ cb.activeEvents = .empty := by
  cases hd : res.data <;> simp [collider_builder_for, hd, Bind.bind, Except.bind] at h
  case BoxCollisionShape s =>
    cases h0 : listIdx s.size 0 <;> rw [h0] at h <;> simp at h
    cases h1 : listIdx s.size 1 <;> rw [h1] at h <;> simp at h
    cases h2 : listIdx s.size 2 <;> rw [h2] at h <;> simp at h
    subst h
    simp [ColliderBuilder.cuboid, ColliderBuilder.ofShape]
  case SphereCollisionShape s =>
    subst h
    simp [ColliderBuilder.ball, ColliderBuilder.ofShape]
  case ConcavePolygonCollisionShape s =>
    cases hv : polylineVerts s.data 0 <;> rw [hv] at h <;> simp at h
    subst h
    simp [ColliderBuilder.polyline, ColliderBuilder.ofShape]

/-- Classification of spawn results: body or collider, but not `Node`. -/
def is_physics_or_collider : SpawnedWorldEntityData → Bool
  | .PhysicsBody _ _ => true
  | .Collider _ => true
  | .Node => false

theorem spawn_collision_shape_spec (entity : WorldEntity) (shape : CollisionShapeData)
    (abs_t : NodeTransform) (rel : Matrix4) (pd : Option SpawnedWorldEntityData)
    (rs : List (String × WorldResource)) (s : SpawnState) (d : Option SpawnedWorldEntityData)
    (s2 : SpawnState)
    (h : spawn_collision_shape entity shape abs_t rel pd rs s = .ok (d, s2)) :
    s2.entities = s.entities ∧ s2.bodies = s.bodies ∧
      (d = none ∨ ∃ hdl, d = some (.Collider hdl)) := by
  unfold spawn_collision_shape at h
  cases pd with
  | none =>
    cases hp : parse_collider rs shape none entity.metadata with
    | error msg => simp [hp, Bind.bind, Except.bind] at h
    | ok copt =>
      cases copt with
      | none =>
        simp [hp, Bind.bind, Except.bind] at h
        obtain ⟨hd, hs⟩ := h
        subst hd; subst hs; simp
      | some collider =>
        simp [hp, Bind.bind, Except.bind] at h
        obtain ⟨hd, hs⟩ := h
        subst hd; subst hs; simp
  | some pdd =>
    cases pdd with
    | PhysicsBody ph pbt =>
      cases hp : parse_collider rs shape (some pbt) entity.metadata with
      | error msg => simp [hp, Bind.bind, Except.bind] at h
      | ok copt =>
        cases copt with
        | none =>
          simp [hp, Bind.bind, Except.bind] at h
          obtain ⟨hd, hs⟩ := h
          subst hd; subst hs; simp
        | some collider =>
          simp [hp, Bind.bind, Except.bind] at h
          obtain ⟨hd, hs⟩ := h
          subst hd; subst hs; simp
    | Collider ch =>
      cases hp : parse_collider rs shape none entity.metadata with
      | error msg => simp [hp, Bind.bind, Except.bind] at h
      | ok copt =>
        cases copt with
        | none =>
          simp [hp, Bind.bind, Except.bind] at h
          obtain ⟨hd, hs⟩ := h
          subst hd; subst hs; simp
        | some collider =>
          simp [hp, Bind.bind, Except.bind] at h
          obtain ⟨hd, hs⟩ := h
          subst hd; subst hs; simp
    | Node =>
      cases hp : parse_collider rs shape none entity.metadata with
      | error msg => simp [hp, Bind.bind, Except.bind] at h
      | ok copt =>
        cases copt with
        | none =>
          simp [hp, Bind.bind, Except.bind] at h
          obtain ⟨hd, hs⟩ := h
          subst hd; subst hs; simp
        | some collider =>
          simp [hp, Bind.bind, Except.bind] at h
          obtain ⟨hd, hs⟩ := h
          subst hd; subst hs; simp

theorem spawn_entity_data_spec (e : WorldEntity) (pd : Option SpawnedWorldEntityData)
    (abs_t : NodeTransform) (rel : Matrix4) (rs : List (String × WorldResource))
    (s : SpawnState) (d : Option SpawnedWorldEntityData) (s2 : SpawnState)
    (h : spawn_entity_data e pd abs_t rel rs s = .ok (d, s2)) :
    (d = none ∧ s2.entities = s.entities) ∨
    (∃ dd, d = some dd ∧ is_physics_or_collider dd = true ∧
       s2.entities = (e.name,
         { entity_type := e.entity_type, data := dd, transform := abs_t
           metadata := e.metadata }) :: s.entities) := by
  unfold spawn_entity_data at h
  cases he : e.data with
  | StaticBody3D b =>
    simp [he, Bind.bind, Except.bind, spawn_body] at h
    obtain ⟨hd, hs⟩ := h
    subst hd; subst hs
    right
    exact ⟨_, rfl, rfl, rfl⟩
  | RigidBody3D b =>
    simp [he, Bind.bind, Except.bind, spawn_body] at h
    obtain ⟨hd, hs⟩ := h
    subst hd; subst hs
    right
    exact ⟨_, rfl, rfl, rfl⟩
  | KinematicBody3D b =>
    simp [he, Bind.bind, Except.bind, spawn_body] at h
    obtain ⟨hd, hs⟩ := h
    subst hd; subst hs
    right
    exact ⟨_, rfl, rfl, rfl⟩
  | CollisionShape3D shape =>
    cases hcs : spawn_collision_shape e shape abs_t rel pd rs s with
    | error msg => simp [he, hcs, Bind.bind, Except.bind] at h
    | ok r =>
      obtain ⟨d0, s0⟩ := r
      have hspec := spawn_collision_shape_spec e shape abs_t rel pd rs s d0 s0 hcs
      obtain ⟨hse, hsb, hd0⟩ := hspec
      cases d0 with
      | none =>
        simp [he, hcs, Bind.bind, Except.bind] at h
        obtain ⟨hd, hs⟩ := h
        subst hd; subst hs
        left
        exact ⟨rfl, hse⟩
      | some dd =>
        simp [he, hcs, Bind.bind, Except.bind] at h
        obtain ⟨hd, hs⟩ := h
        subst hd; subst hs
        right
        refine ⟨dd, rfl, ?_, by simp [hse]⟩
        rcases hd0 with h1 | ⟨hdl, h2⟩
        · cases h1
        · cases h2
          rfl
  | ModelScene b =>
    simp [he, Bind.bind, Except.bind] at h
    obtain ⟨hd, hs⟩ := h
    subst hd; subst hs
    left
    exact ⟨rfl, rfl⟩
  | MeshInstance3D b =>
    simp [he, Bind.bind, Except.bind] at h
    obtain ⟨hd, hs⟩ := h
    subst hd; subst hs
    left
    exact ⟨rfl, rfl⟩
  | Camera b =>
    simp [he, Bind.bind, Except.bind] at h
    obtain ⟨hd, hs⟩ := h
    subst hd; subst hs
    left
    exact ⟨rfl, rfl⟩
  | Node3D b =>
    simp [he, Bind.bind, Except.bind] at h
    obtain ⟨hd, hs⟩ := h
    subst hd; subst hs
    left
    exact ⟨rfl, rfl⟩

mutual

/-- Model of the specification's transform-composition rule, written from the
spec's words for comparison against the walk: `absolute(child) =
absolute(parent) * relative(child)` with the supplied transform at the root,
an entity without a resolvable relative transform halting its subtree.
Yields the (name, absolute matrix) pair of every entity the rule reaches. -/
def spec_absolute_pairs (pt : Matrix4) (e : WorldEntity) : List (String × Matrix4) :=
  match get_entity_transform e with
  | .ok (some rel) =>
      (e.name, pt.mul rel) :: spec_absolute_pairs_list (pt.mul rel) (e.children.getD [])
  | _ => []
termination_by sizeOf e
decreasing_by
  cases e with
  | mk n t d m c => cases c <;> simp [WorldEntity.children] <;> omega

/-- `spec_absolute_pairs` over a sibling list. -/
def spec_absolute_pairs_list (pt : Matrix4) (l : List WorldEntity) : List (String × Matrix4) :=
  match l with
  | [] => []
  | e :: rest => spec_absolute_pairs pt e ++ spec_absolute_pairs_list pt rest
termination_by sizeOf l
decreasing_by
  all_goals simp
  omega

end

theorem spec_absolute_pairs_found (pt : Matrix4) (e : WorldEntity) (rel : Matrix4)
    (hg : get_entity_transform e = .ok (some rel)) :
    spec_absolute_pairs pt e =
      (e.name, pt.mul rel) :: spec_absolute_pairs_list (pt.mul rel) (e.children.getD []) := by
  rw [spec_absolute_pairs]
  simp [hg]

theorem sizeOf_children_lt (e : WorldEntity) (cs : List WorldEntity)
    (hc : e.children = some cs) : sizeOf cs < sizeOf e := by
  cases e with
  | mk n t d m c =>
    simp [WorldEntity.children] at hc
    subst hc
    simp
    omega

/-- What the walk guarantees for a single entity: the returned spawn result is
never `Node`, and every result-map entry it adds is a body or collider whose
recorded transform is a spec-composed absolute transform of a same-named
node. -/
def entity_tracks_prop (e : WorldEntity) : Prop := ∀ (pt : Matrix4)
    (pd : Option SpawnedWorldEntityData) (rs : List (String × WorldResource))
    (s : SpawnState) (d : Option SpawnedWorldEntityData) (s2 : SpawnState),
    spawn_entity e pt pd rs s = .ok (d, s2) →
    (∀ sd, d = some sd → is_physics_or_collider sd = true) ∧
    (∀ p, p ∈ s2.entities → p ∈ s.entities ∨
      (is_physics_or_collider p.2.data = true ∧
       ∃ m, (p.1, m) ∈ spec_absolute_pairs pt e ∧ p.2.transform.matrix = m))

/-- `entity_tracks_prop` for a sibling list. -/
def children_tracks_prop (l : List WorldEntity) : Prop := ∀ (pt : Matrix4)
    (pd : Option SpawnedWorldEntityData) (rs : List (String × WorldResource))
    (s : SpawnState) (s2 : SpawnState),
    spawn_children l pt pd rs s = .ok s2 →
    ∀ p, p ∈ s2.entities → p ∈ s.entities ∨
      (is_physics_or_collider p.2.data = true ∧
       ∃ m, (p.1, m) ∈ spec_absolute_pairs_list pt l ∧ p.2.transform.matrix = m)

theorem tracks_aux : ∀ (n : Nat),
    (∀ e, sizeOf e = n → entity_tracks_prop e) ∧
    (∀ l, sizeOf l = n → children_tracks_prop l) := by
  intro n
  induction n using Nat.strong_induction_on with
  | _ n ih =>
    constructor
    · intro e hn
      intro pt pd rs s d s2 h
      rw [spawn_entity_eq] at h
      cases hg : get_entity_transform e with
      | error msg => simp [hg] at h
      | ok topt =>
        cases topt with
        | none =>
          simp only [hg, Except.ok.injEq, Prod.mk.injEq] at h
          obtain ⟨hd, hs⟩ := h
          subst hd; subst hs
          constructor
          · intro sd hsd1
            cases hsd1
          · intro p hp
            exact Or.inl hp
        | some rel =>
          simp only [hg] at h
          cases hsd : spawn_entity_data e pd (NodeTransform.from_matrix (pt.mul rel))
              rel rs s with
          | error msg => simp [hsd] at h
          | ok r =>
            obtain ⟨r1, rst⟩ := r
            have hdata := spawn_entity_data_spec e pd (NodeTransform.from_matrix (pt.mul rel))
              rel rs s r1 rst hsd
            simp only [hsd] at h
            cases hc : e.children with
            | none =>
              simp only [hc, Except.ok.injEq, Prod.mk.injEq] at h
              obtain ⟨hd, hs⟩ := h
              subst hd; subst hs
              constructor
              · intro sd hsd1
                rcases hdata with ⟨h1, _⟩ | ⟨dd, hdd, hphys, _⟩
                · rw [h1] at hsd1; cases hsd1
                · rw [hdd] at hsd1
                  cases hsd1
                  exact hphys
              · intro p hp
                rcases hdata with ⟨h1, h2⟩ | ⟨dd, hdd, hphys, h2⟩
                · rw [h2] at hp
                  exact Or.inl hp
                · rw [h2] at hp
                  rcases List.mem_cons.mp hp with hp | hp
                  · subst hp
                    right
                    refine ⟨hphys, pt.mul rel, ?_, rfl⟩
                    rw [spec_absolute_pairs_found pt e rel hg]
                    exact List.mem_cons_self _ _
                  · exact Or.inl hp
            | some cs =>
              simp only [hc] at h
              cases hsc : spawn_children cs (pt.mul rel) r1 rs rst with
              | error msg => simp [hsc, Except.map] at h
              | ok s3 =>
                simp only [hsc, Except.map, Except.ok.injEq, Prod.mk.injEq] at h
                obtain ⟨hd, hs⟩ := h
                subst hd; subst hs
                have hlt : sizeOf cs < n := by
                  rw [← hn]
                  exact sizeOf_children_lt e cs hc
                have hkids := ((ih (sizeOf cs) hlt).2 cs rfl) (pt.mul rel) r1 rs rst s3 hsc
                constructor
                · intro sd hsd1
                  rcases hdata with ⟨h1, _⟩ | ⟨dd, hdd, hphys, _⟩
                  · rw [h1] at hsd1; cases hsd1
                  · rw [hdd] at hsd1
                    cases hsd1
                    exact hphys
                · intro p hp
                  rcases hkids p hp with hp2 | ⟨hphys2, m, hm, hmat⟩
                  · rcases hdata with ⟨h1, h2⟩ | ⟨dd, hdd, hphys, h2⟩
                    · rw [h2] at hp2
                      exact Or.inl hp2
                    · rw [h2] at hp2
                      rcases List.mem_cons.mp hp2 with hp2 | hp2
                      · subst hp2
                        right
                        refine ⟨hphys, pt.mul rel, ?_, rfl⟩
                        rw [spec_absolute_pairs_found pt e rel hg]
                        exact List.mem_cons_self _ _
                      · exact Or.inl hp2
                  · right
                    refine ⟨hphys2, m, ?_, hmat⟩
                    rw [spec_absolute_pairs_found pt e rel hg, hc]
                    exact List.mem_cons_of_mem _ hm
    · intro l hn
      intro pt pd rs s s2 h
      cases l with
      | nil =>
        rw [spawn_children_nil] at h
        cases h
        exact fun p hp => Or.inl hp
      | cons c rest =>
        rw [spawn_children_cons] at h
        cases hse : spawn_entity c pt pd rs s with
        | error msg => simp [hse] at h
        | ok r =>
          obtain ⟨r1, rst⟩ := r
          simp only [hse] at h
          have hlt1 : sizeOf c < n := by rw [← hn]; simp <;> omega
          have hlt2 : sizeOf rest < n := by rw [← hn]; simp <;> omega
          have hhead := ((ih (sizeOf c) hlt1).1 c rfl) pt pd rs s r1 rst hse
          have htail := ((ih (sizeOf rest) hlt2).2 rest rfl) pt pd rs rst s2 h
          intro p hp
          rcases htail p hp with hp2 | ⟨hphys, m, hm, hmat⟩
          · rcases hhead.2 p hp2 with hp3 | ⟨hphys, m, hm, hmat⟩
            · exact Or.inl hp3
            · right
              refine ⟨hphys, m, ?_, hmat⟩
              rw [spec_absolute_pairs_list]
              exact List.mem_append_left _ hm
          · right
            refine ⟨hphys, m, ?_, hmat⟩
            rw [spec_absolute_pairs_list]
            exact List.mem_append_right _ hm

theorem spawn_entity_tracks (e : WorldEntity) : entity_tracks_prop e :=
  (tracks_aux (sizeOf e)).1 e rfl

theorem spawn_children_tracks (l : List WorldEntity) : children_tracks_prop l :=
  (tracks_aux (sizeOf l)).2 l rfl

theorem apply_sensor_metadata_bool (md : List (String × Value)) (b : ColliderBuilder)
    (bv : Bool) (h : md.lookup "sensor" = some (.bool bv)) :
    apply_sensor_metadata md b =
      ((b.withSensor bv).withActiveCollisionTypes .all).withActiveEvents .all := by
  simp [apply_sensor_metadata, h, Value.as_bool]

theorem apply_sensor_metadata_absent (md : List (String × Value)) (b : ColliderBuilder)
    (h : md.lookup "sensor" = none) : apply_sensor_metadata md b = b := by
  simp [apply_sensor_metadata, h]

theorem apply_sensor_metadata_nonbool (md : List (String × Value)) (b : ColliderBuilder)
    (v : Value) (h : md.lookup "sensor" = some v) (hv : v.as_bool = none) :
    apply_sensor_metadata md b = b := by
  simp [apply_sensor_metadata, h, hv]

theorem apply_sensor_metadata_shape (md : List (String × Value)) (b : ColliderBuilder) :
    (apply_sensor_metadata md b).shape = b.shape := by
  unfold apply_sensor_metadata
  cases hl : md.lookup "sensor" with
  | none => rfl
  | some v =>
    cases hv : v.as_bool with
    | none => simp [hv]
    | some bv =>
      simp [hv, ColliderBuilder.withSensor, ColliderBuilder.withActiveCollisionTypes,
        ColliderBuilder.withActiveEvents]

/-- C1: for a CollisionShape entity, a `PhysicsBody` parent result attaches the
collider to that parent's body handle positioned by the parent-relative
transform, while any other parent context (none, `Collider`, `Node`) inserts a
free-standing collider (no owning body) positioned by the absolute transform. -/
theorem collision_shape_attachment_frames
    (entity : WorldEntity) (shape : CollisionShapeData) (abs_t : NodeTransform) (rel : Matrix4)
    (rs : List (String × WorldResource)) (s : SpawnState) (col : Collider) :
    (∀ ph pbt, parse_collider rs shape (some pbt) entity.metadata = .ok (some col) →
       spawn_collision_shape entity shape abs_t rel (some (.PhysicsBody ph pbt)) rs s =
         .ok (some (.Collider s.colliders.length),
           { s with colliders := s.colliders ++
               [{ collider := col.set_position (NodeTransform.from_matrix rel).toIsometry,
                  parent := some ph }] })) ∧
    (∀ pd, (pd = none ∨ (∃ ch, pd = some (.Collider ch)) ∨ pd = some .Node) →
       parse_collider rs shape none entity.metadata = .ok (some col) →
       spawn_collision_shape entity shape abs_t rel pd rs s =
         .ok (some (.Collider s.colliders.length),
           { s with colliders := s.colliders ++
               [{ collider := col.set_position abs_t.toIsometry, parent := none }] })) := by
  constructor
  · intro ph pbt hp
    unfold spawn_collision_shape
    simp [hp, Bind.bind, Except.bind]
  · intro pd hpd hp
    rcases hpd with hpd | ⟨ch, hpd⟩ | hpd <;> subst hpd <;>
      unfold spawn_collision_shape <;> simp [hp, Bind.bind, Except.bind]

/-- A missing shape resource makes `spawn_collision_shape` yield no collider
and leave the state unchanged, for every parent context. -/
theorem spawn_collision_shape_missing
    (entity : WorldEntity) (shape : CollisionShapeData) (abs_t : NodeTransform) (rel : Matrix4)
    (pd : Option SpawnedWorldEntityData) (rs : List (String × WorldResource)) (s : SpawnState)
    (hmiss : rs.lookup shape.shape = none) :
    spawn_collision_shape entity shape abs_t rel pd rs s = .ok (none, s) := by
  have hp := fun pbt => parse_collider_missing rs shape pbt entity.metadata hmiss
  unfold spawn_collision_shape
  cases pd with
  | none => simp [hp none, Bind.bind, Except.bind]
  | some pdd =>
    cases pdd with
    | PhysicsBody ph pbt => simp [hp (some pbt), Bind.bind, Except.bind]
    | Collider ch => simp [hp none, Bind.bind, Except.bind]
    | Node => simp [hp none, Bind.bind, Except.bind]

/-- C7: a CollisionShape whose resource name is absent from the table yields no
collider and leaves the walk state untouched; traversal over the following
siblings proceeds exactly as if the entity were dropped from the list. -/
theorem missing_resource_skips_only_that_entity
    (e : WorldEntity) (shape : CollisionShapeData) (pt : Matrix4)
    (pd : Option SpawnedWorldEntityData) (rs : List (String × WorldResource)) (s : SpawnState)
    (hdata : e.data = .CollisionShape3D shape)
    (hlen : shape.transform.length = 16)
    (hmiss : rs.lookup shape.shape = none)
    (hkids : e.children = none) :
    spawn_entity e pt pd rs s = .ok (none, s) ∧
    ∀ rest, spawn_children (e :: rest) pt pd rs s = spawn_children rest pt pd rs s := by
  have hg : ∃ relM, get_entity_transform e = .ok (some relM) := by
    simp [get_entity_transform, hdata, Matrix4.fromColumnSlice, hlen, Except.map]
  obtain ⟨relM, hg⟩ := hg
  have hsd : spawn_entity_data e pd (NodeTransform.from_matrix (pt.mul relM)) relM rs s =
      .ok (none, s) := by
    unfold spawn_entity_data
    simp [hdata, Bind.bind, Except.bind,
      spawn_collision_shape_missing e shape _ relM pd rs s hmiss]
  have hone : spawn_entity e pt pd rs s = .ok (none, s) := by
    rw [spawn_entity_eq]
    simp only [hg, hsd, hkids]
  refine ⟨hone, fun rest => ?_⟩
  rw [spawn_children_cons, hone]

/-- C8: collider geometry is determined by the resolved resource variant —
box sizes halved per axis into a cuboid, sphere radius taken directly into a
ball, concave-polygon float data consumed three at a time in order into a
polyline. -/
theorem collider_shape_from_resource_variant
    (rs : List (String × WorldResource)) (shape : CollisionShapeData)
    (pbt : Option RigidBodyType) (md : List (String × Value)) :
    (∀ sx sy sz rest, rs.lookup shape.shape =
         some ⟨.BoxCollisionShape ⟨sx :: sy :: sz :: rest⟩⟩ →
       ∃ col, parse_collider rs shape pbt md = .ok (some col) ∧
         col.shape = .cuboid (sx / 2) (sy / 2) (sz / 2)) ∧
    (∀ radius, rs.lookup shape.shape = some ⟨.SphereCollisionShape ⟨radius⟩⟩ →
       ∃ col, parse_collider rs shape pbt md = .ok (some col) ∧ col.shape = .ball radius) ∧
    (∀ dat, rs.lookup shape.shape = some ⟨.ConcavePolygonCollisionShape ⟨dat⟩⟩ →
       dat.length % 3 = 0 →
       ∃ col, parse_collider rs shape pbt md = .ok (some col) ∧
         col.shape = .polyline (spec_chunks3 dat) none) := by
  refine ⟨?_, ?_, ?_⟩
  · intro sx sy sz rest hr
    have hcb : collider_builder_for ⟨.BoxCollisionShape ⟨sx :: sy :: sz :: rest⟩⟩ =
        .ok (ColliderBuilder.cuboid (sx / 2) (sy / 2) (sz / 2)) := by
      simp [collider_builder_for, listIdx, Bind.bind, Except.bind]
    rw [parse_collider_found rs shape pbt md _ hr, hcb]
    refine ⟨_, rfl, ?_⟩
    rw [ColliderBuilder.build]
    exact apply_sensor_metadata_shape md _
  · intro radius hr
    have hcb : collider_builder_for ⟨.SphereCollisionShape ⟨radius⟩⟩ =
        .ok (ColliderBuilder.ball radius) := by
      simp [collider_builder_for]
    rw [parse_collider_found rs shape pbt md _ hr, hcb]
    refine ⟨_, rfl, ?_⟩
    rw [ColliderBuilder.build]
    exact apply_sensor_metadata_shape md _
  · intro dat hr h3
    have hverts : polylineVerts dat 0 = .ok (spec_chunks3 dat) := by
      have := polylineVerts_ok (dat.length - 0) dat 0 rfl (by omega)
      simpa using this
    have hcb : collider_builder_for ⟨.ConcavePolygonCollisionShape ⟨dat⟩⟩ =
        .ok (ColliderBuilder.polyline (spec_chunks3 dat) none) := by
      simp [collider_builder_for, hverts, Bind.bind, Except.bind]
    rw [parse_collider_found rs shape pbt md _ hr, hcb]
    refine ⟨_, rfl, ?_⟩
    rw [ColliderBuilder.build]
    exact apply_sensor_metadata_shape md _

/-- C10: the concave-polygon vertex loop is total exactly when the flat float
list's length is a multiple of 3 — then every accessed index `i`, `i+1`, `i+2`
is in bounds — while any other length makes the final group's indexing go out
of bounds (a panic), which `parse_collider` propagates. -/
theorem concave_polygon_indexing (dat : List ℚ) :
    (dat.length % 3 = 0 → polylineVerts dat 0 = .ok (spec_chunks3 dat)) ∧
    (dat.length % 3 ≠ 0 → polylineVerts dat 0 = .error "index out of bounds") ∧
    (∀ (rs : List (String × WorldResource)) (shape : CollisionShapeData)
       (pbt : Option RigidBodyType) (md : List (String × Value)),
       rs.lookup shape.shape = some ⟨.ConcavePolygonCollisionShape ⟨dat⟩⟩ →
       dat.length % 3 ≠ 0 →
       parse_collider rs shape pbt md = .error "index out of bounds") := by
  refine ⟨?_, ?_, ?_⟩
  · intro h3
    have := polylineVerts_ok (dat.length - 0) dat 0 rfl (by omega)
    simpa using this
  · intro h3
    have hlen : 0 < dat.length := by
      rcases Nat.eq_zero_or_pos dat.length with h | h
      · rw [h] at h3; simp at h3
      · exact h
    exact polylineVerts_err (dat.length - 0) dat 0 rfl hlen (by omega)
  · intro rs shape pbt md hr h3
    have herr : polylineVerts dat 0 = .error "index out of bounds" := by
      have hlen : 0 < dat.length := by
        rcases Nat.eq_zero_or_pos dat.length with h | h
        · rw [h] at h3; simp at h3
        · exact h
      exact polylineVerts_err (dat.length - 0) dat 0 rfl hlen (by omega)
    have hcb : collider_builder_for ⟨.ConcavePolygonCollisionShape ⟨dat⟩⟩ =
        .error "index out of bounds" := by
      simp [collider_builder_for, herr, Bind.bind, Except.bind]
    rw [parse_collider_found rs shape pbt md _ hr, hcb]
    rfl

/-- C5 (amended): a boolean `"sensor"` metadata entry sets the collider's
sensor flag to the entry's value and enables all collision types and events
(even when the value is `false`); an absent or non-boolean entry leaves the
builder defaults (solid, default collision types, no events). -/
theorem sensor_metadata_behavior
    (rs : List (String × WorldResource)) (shape : CollisionShapeData)
    (pbt : Option RigidBodyType) (md : List (String × Value)) (col : Collider)
    (h : parse_collider rs shape pbt md = .ok (some col)) :
    (∀ bv, md.lookup "sensor" = some (.bool bv) →
       col.sensor = bv ∧ col.activeCollisionTypes = .all ∧ col.activeEvents = .all) ∧
    (md.lookup "sensor" = none →
       col.sensor = false ∧ col.activeCollisionTypes = .default ∧
         col.activeEvents = .empty) ∧
    (∀ v, md.lookup "sensor" = some v → v.as_bool = none →
       col.sensor = false ∧ col.activeCollisionTypes = .default ∧
         col.activeEvents = .empty) := by
  cases hl : rs.lookup shape.shape with
  | none => rw [parse_collider_missing rs shape pbt md hl] at h; cases h
  | some res =>
    rw [parse_collider_found rs shape pbt md res hl] at h
    cases hcb : collider_builder_for res with
    | error msg => rw [hcb] at h; cases h
    | ok cb =>
      rw [hcb] at h
      simp [Except.map] at h
      obtain ⟨hdef1, hdef2, hdef3⟩ := collider_builder_for_defaults res cb hcb
      subst h
      refine ⟨?_, ?_, ?_⟩
      · intro bv hs
        rw [apply_sensor_metadata_bool md cb bv hs]
        simp [ColliderBuilder.build, ColliderBuilder.withSensor,
          ColliderBuilder.withActiveCollisionTypes, ColliderBuilder.withActiveEvents]
      · intro hs
        rw [apply_sensor_metadata_absent md cb hs]
        simp [ColliderBuilder.build, hdef1, hdef2, hdef3]
      · intro v hs hv
        rw [apply_sensor_metadata_nonbool md cb v hs hv]
        simp [ColliderBuilder.build, hdef1, hdef2, hdef3]

/-- C2: every entry the loader records carries as its transform the
spec-composed absolute matrix (root transform — identity when the caller
supplies none — times the chain of relative transforms) of a same-named node
of the tree. -/
theorem load_world_absolute_transform_composition
    (world : SceneWorld) (transform : Option Matrix4) (st : SpawnState)
    (h : load_world_to_rapier world transform = .ok st) :
    ∀ p, p ∈ st.entities →
      ∃ m, (p.1, m) ∈ spec_absolute_pairs_list (transform.getD Matrix4.identity)
          world.entities ∧ p.2.transform.matrix = m := by
  intro p hp
  unfold load_world_to_rapier at h
  have htr := spawn_children_tracks world.entities (transform.getD Matrix4.identity) none
    world.resources { bodies := [], colliders := [], entities := [] } st h p hp
  rcases htr with h2 | ⟨_, m, hm, hmat⟩
  · exact absurd h2 (List.not_mem_nil p)
  · exact ⟨m, hm, hmat⟩

/-- C9: a spawn result is never the `Node` variant, and every entry ever
recorded in the name-indexed result map carries a `PhysicsBody` or a
`Collider`; entities yielding no physics object are never recorded. -/
theorem spawn_results_are_bodies_or_colliders :
    (∀ (e : WorldEntity) (pt : Matrix4) (pd : Option SpawnedWorldEntityData)
       (rs : List (String × WorldResource)) (s : SpawnState)
       (d : Option SpawnedWorldEntityData) (s2 : SpawnState),
       spawn_entity e pt pd rs s = .ok (d, s2) →
       (∀ sd, d = some sd → is_physics_or_collider sd = true) ∧
       (∀ p, p ∈ s2.entities → p ∈ s.entities ∨ is_physics_or_collider p.2.data = true)) ∧
    (∀ (world : SceneWorld) (transform : Option Matrix4) (st : SpawnState),
       load_world_to_rapier world transform = .ok st →
       ∀ p, p ∈ st.entities → is_physics_or_collider p.2.data = true) := by
  constructor
  · intro e pt pd rs s d s2 h
    have htr := spawn_entity_tracks e pt pd rs s d s2 h
    refine ⟨htr.1, fun p hp => ?_⟩
    rcases htr.2 p hp with h2 | ⟨hb, _⟩
    · exact Or.inl h2
    · exact Or.inr hb
  · intro world t st h p hp
    unfold load_world_to_rapier at h
    have htr := spawn_children_tracks world.entities (t.getD Matrix4.identity) none
      world.resources { bodies := [], colliders := [], entities := [] } st h p hp
    rcases htr with h2 | ⟨hb, _⟩
    · exact absurd h2 (List.not_mem_nil p)
    · exact hb

/-- The transform field carried by every variant of the closed `EntityData`
set (each variant's struct has exactly one `transform`). -/
def transform_field : EntityData → List ℚ
  | .StaticBody3D body => body.transform
  | .RigidBody3D body => body.transform
  | .KinematicBody3D body => body.transform
  | .CollisionShape3D shape => shape.transform
  | .ModelScene body => body.transform
  | .MeshInstance3D body => body.transform
  | .Camera body => body.transform
  | .Node3D body => body.transform

/-- The variants that fall into `get_entity_transform`'s default `_ => None`
arm. -/
def physics_transform_unhandled : EntityData → Bool
  | .MeshInstance3D _ => true
  | .Camera _ => true
  | _ => false

/-- C3 (amended): every variant carries a transform field, and the six
variants the physics loader handles resolve a relative transform (given 16
elements); but `MeshInstance3D` and `Camera` fall to the default arm and take
the recoverable skip path — no transform, entity skipped, children never
visited, state unchanged. -/
theorem transform_extraction_coverage (e : WorldEntity) :
    (physics_transform_unhandled e.data = false → (transform_field e.data).length = 16 →
       ∃ m, get_entity_transform e = .ok (some m)) ∧
    (physics_transform_unhandled e.data = true →
       get_entity_transform e = .ok none ∧
       ∀ (pt : Matrix4) (pd : Option SpawnedWorldEntityData)
         (rs : List (String × WorldResource)) (s : SpawnState),
         spawn_entity e pt pd rs s = .ok (none, s)) := by
  constructor
  · intro hun hlen
    cases he : e.data with
    | StaticBody3D b =>
      simp [transform_field, he] at hlen
      exact ⟨(fun i j => b.transform.getD (j.val * 4 + i.val) 0), by
        simp [get_entity_transform, he, Matrix4.fromColumnSlice, hlen, Except.map]⟩
    | RigidBody3D b =>
      simp [transform_field, he] at hlen
      exact ⟨(fun i j => b.transform.getD (j.val * 4 + i.val) 0), by
        simp [get_entity_transform, he, Matrix4.fromColumnSlice, hlen, Except.map]⟩
    | KinematicBody3D b =>
      simp [transform_field, he] at hlen
      exact ⟨(fun i j => b.transform.getD (j.val * 4 + i.val) 0), by
        simp [get_entity_transform, he, Matrix4.fromColumnSlice, hlen, Except.map]⟩
    | CollisionShape3D b =>
      simp [transform_field, he] at hlen
      exact ⟨(fun i j => b.transform.getD (j.val * 4 + i.val) 0), by
        simp [get_entity_transform, he, Matrix4.fromColumnSlice, hlen, Except.map]⟩
    | ModelScene b =>
      simp [transform_field, he] at hlen
      exact ⟨(fun i j => b.transform.getD (j.val * 4 + i.val) 0), by
        simp [get_entity_transform, he, Matrix4.fromColumnSlice, hlen, Except.map]⟩
    | Node3D b =>
      simp [transform_field, he] at hlen
      exact ⟨(fun i j => b.transform.getD (j.val * 4 + i.val) 0), by
        simp [get_entity_transform, he, Matrix4.fromColumnSlice, hlen, Except.map]⟩
    | MeshInstance3D b => simp [physics_transform_unhandled, he] at hun
    | Camera b => simp [physics_transform_unhandled, he] at hun
  · intro hun
    have hg : get_entity_transform e = .ok none := by
      cases he : e.data <;> simp [physics_transform_unhandled, he] at hun <;>
        simp [get_entity_transform, he]
    refine ⟨hg, fun pt pd rs s => ?_⟩
    rw [spawn_entity_eq]
    simp [hg]

/-- The three resource variants usable as collision shapes. -/
def is_collision_shape_resource : ResourceData → Bool
  | .BoxCollisionShape _ => true
  | .SphereCollisionShape _ => true
  | .ConcavePolygonCollisionShape _ => true
  | _ => false

theorem collider_builder_for_mismatch (res : WorldResource)
    (hmis : is_collision_shape_resource res.data = false) :
    collider_builder_for res = .error "invalid shape" := by
  cases hd : res.data <;> simp [is_collision_shape_resource, hd] at hmis <;>
    simp [collider_builder_for, hd]

theorem spawn_collision_shape_error
    (entity : WorldEntity) (shape : CollisionShapeData) (abs_t : NodeTransform) (rel : Matrix4)
    (pd : Option SpawnedWorldEntityData) (rs : List (String × WorldResource))
    (s : SpawnState) (msg : String)
    (herr : ∀ pbt2, parse_collider rs shape pbt2 entity.metadata = .error msg) :
    spawn_collision_shape entity shape abs_t rel pd rs s = .error msg := by
  unfold spawn_collision_shape
  cases pd with
  | none => simp [herr none, Bind.bind, Except.bind]
  | some pdd =>
    cases pdd with
    | PhysicsBody ph pbt => simp [herr (some pbt), Bind.bind, Except.bind]
    | Collider ch => simp [herr none, Bind.bind, Except.bind]
    | Node => simp [herr none, Bind.bind, Except.bind]

theorem spawn_entity_data_collision_error
    (e : WorldEntity) (shape : CollisionShapeData) (pd : Option SpawnedWorldEntityData)
    (abs_t : NodeTransform) (rel : Matrix4) (rs : List (String × WorldResource))
    (s : SpawnState) (msg : String)
    (hdata : e.data = .CollisionShape3D shape)
    (hcs : spawn_collision_shape e shape abs_t rel pd rs s = .error msg) :
    spawn_entity_data e pd abs_t rel rs s = .error msg := by
  unfold spawn_entity_data
  simp [hdata, hcs, Bind.bind, Except.bind]

/-- C4 (amended): a CollisionShape whose resource resolves to a non-shape
variant hits `panic!("invalid shape")`: the panic aborts the entire walk —
the entity is not skipped, and siblings after it are never processed. -/
theorem type_mismatch_panics_whole_walk
    (rs : List (String × WorldResource)) (shape : CollisionShapeData) (res : WorldResource)
    (pbt : Option RigidBodyType) (md : List (String × Value))
    (hfound : rs.lookup shape.shape = some res)
    (hmis : is_collision_shape_resource res.data = false) :
    parse_collider rs shape pbt md = .error "invalid shape" ∧
    (∀ (e : WorldEntity) (pt : Matrix4) (pd : Option SpawnedWorldEntityData) (s : SpawnState)
       (rest : List WorldEntity),
       e.data = .CollisionShape3D shape → shape.transform.length = 16 →
       spawn_entity e pt pd rs s = .error "invalid shape" ∧
       spawn_children (e :: rest) pt pd rs s = .error "invalid shape") := by
  have herr : ∀ (md2 : List (String × Value)) (pbt2 : Option RigidBodyType),
      parse_collider rs shape pbt2 md2 = .error "invalid shape" := by
    intro md2 pbt2
    rw [parse_collider_found rs shape pbt2 md2 res hfound,
      collider_builder_for_mismatch res hmis]
    rfl
  refine ⟨herr md pbt, ?_⟩
  intro e pt pd s rest hdata hlen
  have hg : ∃ relM, get_entity_transform e = .ok (some relM) := by
    simp [get_entity_transform, hdata, Matrix4.fromColumnSlice, hlen, Except.map]
  obtain ⟨relM, hg⟩ := hg
  have hcs := spawn_collision_shape_error e shape
    (NodeTransform.from_matrix (pt.mul relM)) relM pd rs s "invalid shape"
    (fun pbt2 => herr e.metadata pbt2)
  have hsd := spawn_entity_data_collision_error e shape pd
    (NodeTransform.from_matrix (pt.mul relM)) relM rs s "invalid shape" hdata hcs
  have hone : spawn_entity e pt pd rs s = .error "invalid shape" := by
    rw [spawn_entity_eq]
    simp only [hg, hsd]
  refine ⟨hone, ?_⟩
  rw [spawn_children_cons, hone]

/-! ## JSON deserialization (`common` crate, `WorldEntityJson::parse`) -/

/-- `common::WorldEntityJson` — an entity as raw JSON, before typing. -/
inductive WorldEntityJson where
  | mk (name : String) (entity_type : String) (data : Value)
       (metadata : List (String × Value))
       (children : Option (List WorldEntityJson)) : WorldEntityJson

def WorldEntityJson.name : WorldEntityJson → String
  | .mk n _ _ _ _ => n

def WorldEntityJson.entity_type : WorldEntityJson → String
  | .mk _ t _ _ _ => t

def WorldEntityJson.data : WorldEntityJson → Value
  | .mk _ _ d _ _ => d

def WorldEntityJson.metadata : WorldEntityJson → List (String × Value)
  | .mk _ _ _ m _ => m

def WorldEntityJson.children : WorldEntityJson → Option (List WorldEntityJson)
  | .mk _ _ _ _ c => c

/-- serde: a JSON number as `f32`. -/
def Value.asNumber : Value → Except String ℚ
  | .num q => .ok q
  | _ => .error "expected a number"

/-- serde: `Vec<f32>`. -/
def Value.asFloatList : Value → Except String (List ℚ)
  | .arr l => l.mapM Value.asNumber
  | _ => .error "expected an array"

/-- serde: `String`. -/
def Value.asStr : Value → Except String String
  | .str s => .ok s
  | _ => .error "expected a string"

/-- serde: `bool`. -/
def Value.asBoolField : Value → Except String Bool
  | .bool b => .ok b
  | _ => .error "expected a boolean"

/-- serde: struct deserialization starts from a JSON object. -/
def Value.objFields : Value → Except String (List (String × Value))
  | .obj fields => .ok fields
  | _ => .error "expected an object"

/-- serde: a required struct field. -/
def reqField (fields : List (String × Value)) (k : String) : Except String Value :=
  match fields.lookup k with
  | some v => .ok v
  | none => .error ("missing field " ++ k)

/-- serde: an `Option<Vec<f32>>` field — absent or null yields `None`. -/
def optFloatListField (fields : List (String × Value)) (k : String) :
    Except String (Option (List ℚ)) :=
  match fields.lookup k with
  | none => .ok none
  | some .null => .ok none
  | some v => v.asFloatList.map some

def deser_StaticBodyData (v : Value) : Except String StaticBodyData := do
  let fields ← v.objFields
  let t ← (← reqField fields "transform").asFloatList
  .ok ⟨t⟩

def deser_RigidBodyData (v : Value) : Except String RigidBodyData := do
  let fields ← v.objFields
  let t ← (← reqField fields "transform").asFloatList
  let lv ← optFloatListField fields "linearVelocity"
  let av ← optFloatListField fields "angularVelocity"
  .ok ⟨t, lv, av⟩

def deser_KinematicBodyData (v : Value) : Except String KinematicBodyData := do
  let fields ← v.objFields
  let t ← (← reqField fields "transform").asFloatList
  let lv ← optFloatListField fields "linearVelocity"
  .ok ⟨t, lv⟩

def deser_CollisionShapeData (v : Value) : Except String CollisionShapeData := do
  let fields ← v.objFields
  let shape ← (← reqField fields "shape").asStr
  let t ← (← reqField fields "transform").asFloatList
  .ok ⟨shape, t⟩

def deser_Node3DData (v : Value) : Except String Node3DData := do
  let fields ← v.objFields
  let t ← (← reqField fields "transform").asFloatList
  .ok ⟨t⟩

def deser_CameraData (v : Value) : Except String CameraData := do
  let fields ← v.objFields
  let t ← (← reqField fields "transform").asFloatList
  .ok ⟨t⟩

def deser_MeshInstanceData (v : Value) : Except String MeshInstanceData := do
  let fields ← v.objFields
  let mesh ← (← reqField fields "mesh").asStr
  let visible ← (← reqField fields "visible").asBoolField
  let t ← (← reqField fields "transform").asFloatList
  .ok ⟨mesh, visible, t⟩

def deser_ModelSceneData (v : Value) : Except String ModelSceneData := do
  let fields ← v.objFields
  let tn ← (← reqField fields "type").asStr
  let dv ← reqField fields "data"
  let t ← (← reqField fields "transform").asFloatList
  .ok ⟨tn, dv, t⟩

/-- `WorldEntityJson::parse_data`: dispatch on the `type` discriminant string;
an unknown discriminant hits `panic!("parsing invalid entity type ..")`, the
empty string is the externally-authored sub-scene reference, and each arm's
`serde` unwrap panics on malformed data. -/
def WorldEntityJson.parse_data (j : WorldEntityJson) : Except String EntityData :=
  match j.entity_type with
  | "StaticBody3D" => (deser_StaticBodyData j.data).map .StaticBody3D
  | "MeshInstance3D" => (deser_MeshInstanceData j.data).map .MeshInstance3D
  | "CollisionShape3D" => (deser_CollisionShapeData j.data).map .CollisionShape3D
  | "Camera3D" => (deser_CameraData j.data).map .Camera
  | "RigidBody3D" => (deser_RigidBodyData j.data).map .RigidBody3D
  | "Node3D" => (deser_Node3DData j.data).map .Node3D
  | "CharacterBody3D" => (deser_KinematicBodyData j.data).map .KinematicBody3D
  | "" => (deser_ModelSceneData j.data).map .ModelScene
  | other => .error ("parsing invalid entity type " ++ other)

mutual

/-- `WorldEntityJson::parse`: type the payload and recursively parse the
children. -/
def WorldEntityJson.parse (j : WorldEntityJson) : Except String WorldEntity := do
  let d ← j.parse_data
  match hc : j.children with
  | none => .ok (.mk j.name j.entity_type d j.metadata none)
  | some cs => do
      let pcs ← WorldEntityJson.parseChildren cs
      .ok (.mk j.name j.entity_type d j.metadata (some pcs))
termination_by sizeOf j
decreasing_by
  cases j with
  | mk n t d2 m c =>
    simp [WorldEntityJson.children] at hc
    subst hc
    simp
    omega

/-- The `children.map(parse).collect()` loop of `WorldEntityJson::parse`. -/
def WorldEntityJson.parseChildren (l : List WorldEntityJson) :
    Except String (List WorldEntity) :=
  match l with
  | [] => .ok []
  | j :: rest => do
      let e ← WorldEntityJson.parse j
      let es ← WorldEntityJson.parseChildren rest
      .ok (e :: es)
termination_by sizeOf l
decreasing_by
  all_goals simp
  omega

end

theorem mapM_asNumber_loop (l : List ℚ) : ∀ acc : List ℚ,
    List.mapM.loop Value.asNumber (l.map Value.num) acc = .ok (acc.reverse ++ l) := by
  induction l with
  | nil => intro acc; simp [List.mapM.loop, Pure.pure, Except.pure]
  | cons x xs ih =>
    intro acc
    simp [List.mapM.loop, Value.asNumber, Bind.bind, Except.bind, ih (x :: acc)]

theorem mapM_asNumber (l : List ℚ) : (l.map Value.num).mapM Value.asNumber = .ok l := by
  simpa [List.mapM] using mapM_asNumber_loop l []

/-- C6 (amended): a wrong-length transform array is not rejected at parse
time — the data model accepts a float list of any length and still yields a
fully-typed entity.  A transform with fewer than 16 elements instead panics
during physics instantiation, when `from_column_slice` builds the 4×4 matrix,
aborting the walk there; a transform with 16 or more elements is accepted at
instantiation too (the matrix takes the first 16 elements). -/
theorem malformed_transform_passes_parse
    (name : String) (md : List (String × Value)) (l : List ℚ) :
    WorldEntityJson.parse
        (.mk name "Node3D" (.obj [("transform", .arr (l.map .num))]) md none) =
      .ok (.mk name "Node3D" (.Node3D ⟨l⟩) md none) ∧
    (l.length < 16 → ∀ (pt : Matrix4) (pd : Option SpawnedWorldEntityData)
       (rs : List (String × WorldResource)) (s : SpawnState),
       spawn_entity (.mk name "Node3D" (.Node3D ⟨l⟩) md none) pt pd rs s =
         .error "matrix from_column_slice requires 16 elements") ∧
    (16 ≤ l.length →
       get_entity_transform (.mk name "Node3D" (.Node3D ⟨l⟩) md none) =
         .ok (some fun i j => l.getD (j.val * 4 + i.val) 0)) := by
  refine ⟨?_, ?_, ?_⟩
  · rw [WorldEntityJson.parse]
    simp [WorldEntityJson.parse_data, WorldEntityJson.entity_type, WorldEntityJson.data,
      WorldEntityJson.name, WorldEntityJson.metadata, WorldEntityJson.children,
      deser_Node3DData, Value.objFields, reqField, Value.asFloatList, mapM_asNumber,
      mapM_asNumber_loop, Bind.bind, Except.bind, Except.map]
  · intro hlen pt pd rs s
    have hg : get_entity_transform (WorldEntity.mk name "Node3D" (.Node3D ⟨l⟩) md none) =
        .error "matrix from_column_slice requires 16 elements" := by
      simp [get_entity_transform, WorldEntity.data, Matrix4.fromColumnSlice,
        Nat.not_le.mpr hlen, Except.map]
    rw [spawn_entity_eq]
    simp [hg]
  · intro hlen
    simp [get_entity_transform, WorldEntity.data, Matrix4.fromColumnSlice, hlen, Except.map]

/-! ## Concrete fixtures for counterexamples and witnesses -/

/-- The 16-element column-major identity matrix list. -/
def idmat_list : List ℚ := [1, 0, 0, 0, 0, 1, 0, 0, 0, 0, 1, 0, 0, 0, 0, 1]

def empty_state : SpawnState := { bodies := [], colliders := [], entities := [] }

def cex3_child : WorldEntity := .mk "inner" "StaticBody3D" (.StaticBody3D ⟨idmat_list⟩) [] none

def cex3_camera : WorldEntity :=
  .mk "cam" "Camera3D" (.Camera ⟨idmat_list⟩) [] (some [cex3_child])

/-- C3 counterexample: a `Camera` entity (which carries a 16-element transform
field) still hits the recoverable skip path — no transform resolves, the
entity is skipped and its `StaticBody3D` child is never visited (the state
comes back unchanged, with no body spawned). -/
theorem camera_variant_takes_skip_path :
    get_entity_transform cex3_camera = .ok none ∧
    spawn_entity cex3_camera Matrix4.identity none [] empty_state =
      .ok (none, empty_state) := by
  refine ⟨rfl, ?_⟩
  rw [spawn_entity_eq]
  rfl

def cex4_shape : CollisionShapeData := ⟨"meshres", idmat_list⟩

def cex4_resources : List (String × WorldResource) :=
  [("meshres", ⟨.BoxMesh ⟨[1, 1, 1], none⟩⟩)]

def cex4_bad : WorldEntity :=
  .mk "bad" "CollisionShape3D" (.CollisionShape3D cex4_shape) [] none

def cex4_sibling : WorldEntity :=
  .mk "sib" "StaticBody3D" (.StaticBody3D ⟨idmat_list⟩) [] none

def cex4_world : SceneWorld := ⟨[cex4_bad, cex4_sibling], cex4_resources⟩

/-- C4 counterexample: a CollisionShape referencing a mesh resource (a
TypeMismatch) panics, aborting the whole load — the resolvable `StaticBody3D`
sibling after it produces no spawn result because the walk never reaches it. -/
theorem type_mismatch_aborts_whole_load :
    load_world_to_rapier cex4_world none = .error "invalid shape" := by
  unfold load_world_to_rapier cex4_world
  rw [spawn_children_cons, spawn_entity_eq]
  rfl

def cex5_resources : List (String × WorldResource) := [("ball", ⟨.SphereCollisionShape ⟨1⟩⟩)]

def cex5_shape : CollisionShapeData := ⟨"ball", idmat_list⟩

def cex5_metadata : List (String × Value) := [("sensor", .bool false)]

def cex5_collider : Collider :=
  { shape := .ball 1, sensor := false, activeCollisionTypes := .all, activeEvents := .all,
    position := { translation := ⟨0, 0, 0⟩, rotation := fun i j => if i = j then 1 else 0 } }

/-- C5 counterexample: metadata containing the boolean entry `"sensor": false`
does NOT flag the collider as a sensor (its sensor flag is the entry's value,
`false`), although it does enable event emission. -/
theorem sensor_false_entry_gives_non_sensor :
    parse_collider cex5_resources cex5_shape none cex5_metadata = .ok (some cex5_collider) ∧
    cex5_collider.sensor = false ∧ cex5_collider.activeEvents = .all :=
  ⟨rfl, rfl, rfl⟩

def cex6_json : WorldEntityJson :=
  .mk "leaf" "Node3D" (.obj [("transform", .arr [.num 1, .num 2, .num 3])]) [] none

def cex6_entity : WorldEntity := .mk "leaf" "Node3D" (.Node3D ⟨[1, 2, 3]⟩) [] none

/-- C6 counterexample: an entity document whose transform array has length 3
parses successfully into a fully-typed entity — the load does NOT fail at
parse time — and the wrong length only errors later, during physics
instantiation's matrix construction. -/
theorem wrong_length_transform_parse_succeeds :
    WorldEntityJson.parse cex6_json = .ok cex6_entity ∧
    get_entity_transform cex6_entity =
      .error "matrix from_column_slice requires 16 elements" := by
  constructor
  · rw [WorldEntityJson.parse]
    rfl
  · rfl

/-! Witness fixtures. -/

def w1_resources : List (String × WorldResource) := [("box", ⟨.BoxCollisionShape ⟨[2, 4, 6]⟩⟩)]

def w1_shape : CollisionShapeData := ⟨"box", idmat_list⟩

def w1_entity : WorldEntity := .mk "shape" "CollisionShape3D" (.CollisionShape3D w1_shape) [] none

def w1_col : Collider :=
  { shape := .cuboid (2 / 2) (4 / 2) (6 / 2), sensor := false,
    activeCollisionTypes := .default, activeEvents := .empty,
    position := { translation := ⟨0, 0, 0⟩, rotation := fun i j => if i = j then 1 else 0 } }

def w1_abs : NodeTransform := NodeTransform.from_matrix Matrix4.identity

/-- C1 witness. -/
theorem collision_shape_attachment_frames_witness :
    (parse_collider w1_resources w1_shape (some .Fixed) w1_entity.metadata =
       .ok (some w1_col) ∧
     spawn_collision_shape w1_entity w1_shape w1_abs Matrix4.identity
         (some (.PhysicsBody 0 .Fixed)) w1_resources empty_state =
       .ok (some (.Collider 0),
         { empty_state with colliders := empty_state.colliders ++
             [{ collider :=
                  w1_col.set_position (NodeTransform.from_matrix Matrix4.identity).toIsometry,
                parent := some 0 }] })) ∧
    (parse_collider w1_resources w1_shape none w1_entity.metadata = .ok (some w1_col) ∧
     spawn_collision_shape w1_entity w1_shape w1_abs Matrix4.identity none
         w1_resources empty_state =
       .ok (some (.Collider 0),
         { empty_state with colliders := empty_state.colliders ++
             [{ collider := w1_col.set_position w1_abs.toIsometry, parent := none }] })) :=
  ⟨⟨rfl, (collision_shape_attachment_frames w1_entity w1_shape w1_abs Matrix4.identity
      w1_resources empty_state w1_col).1 0 .Fixed rfl⟩,
   ⟨rfl, (collision_shape_attachment_frames w1_entity w1_shape w1_abs Matrix4.identity
      w1_resources empty_state w1_col).2 none (Or.inl rfl) rfl⟩⟩

def w2_entity : WorldEntity := .mk "root" "StaticBody3D" (.StaticBody3D ⟨idmat_list⟩) [] none

def w2_world : SceneWorld := ⟨[w2_entity], []⟩

def w2_rel : Matrix4 := fun i j => idmat_list.getD (j.val * 4 + i.val) 0

def w2_nt : NodeTransform := NodeTransform.from_matrix (Matrix4.identity.mul w2_rel)

def w2_spawned : SpawnedWorldEntity :=
  { entity_type := "StaticBody3D", data := .PhysicsBody 0 .Fixed, transform := w2_nt,
    metadata := [] }

def w2_state : SpawnState :=
  { bodies := [{ body_type := .Fixed, position := w2_nt.toIsometry }], colliders := [],
    entities := [("root", w2_spawned)] }

theorem w2_spawn_eq : spawn_entity w2_entity Matrix4.identity none [] empty_state =
    .ok (some (.PhysicsBody 0 .Fixed), w2_state) := by
  rw [spawn_entity_eq]
  rfl

theorem w2_load_eq : load_world_to_rapier w2_world none = .ok w2_state := by
  show spawn_children [w2_entity] Matrix4.identity none [] empty_state = .ok w2_state
  rw [spawn_children_cons, w2_spawn_eq]
  exact spawn_children_nil Matrix4.identity none [] w2_state

/-- C2 witness. -/
theorem load_world_absolute_transform_composition_witness :
    load_world_to_rapier w2_world none = .ok w2_state ∧
    ("root", w2_spawned) ∈ w2_state.entities ∧
    ∃ m, (("root", w2_spawned).1, m) ∈ spec_absolute_pairs_list
        ((none : Option Matrix4).getD Matrix4.identity) w2_world.entities ∧
      ("root", w2_spawned).2.transform.matrix = m :=
  ⟨w2_load_eq, List.Mem.head _,
   load_world_absolute_transform_composition w2_world none w2_state w2_load_eq
     ("root", w2_spawned) (List.Mem.head _)⟩

def w3_node : WorldEntity := .mk "n" "Node3D" (.Node3D ⟨idmat_list⟩) [] none

/-- C3 witness (for the amended statement): a handled variant (`Node3D`)
resolves a transform; an unhandled one (`Camera`) skips. -/
theorem transform_extraction_coverage_witness :
    (physics_transform_unhandled w3_node.data = false ∧
     (transform_field w3_node.data).length = 16 ∧
     ∃ m, get_entity_transform w3_node = .ok (some m)) ∧
    (physics_transform_unhandled cex3_camera.data = true ∧
     (get_entity_transform cex3_camera = .ok none ∧
      ∀ (pt : Matrix4) (pd : Option SpawnedWorldEntityData)
        (rs : List (String × WorldResource)) (s : SpawnState),
        spawn_entity cex3_camera pt pd rs s = .ok (none, s))) :=
  ⟨⟨rfl, by decide, (transform_extraction_coverage w3_node).1 rfl (by decide)⟩,
   ⟨rfl, (transform_extraction_coverage cex3_camera).2 rfl⟩⟩

/-- C4 witness (for the amended statement). -/
theorem type_mismatch_panics_whole_walk_witness :
    (cex4_resources.lookup cex4_shape.shape = some ⟨.BoxMesh ⟨[1, 1, 1], none⟩⟩ ∧
     is_collision_shape_resource (ResourceData.BoxMesh ⟨[1, 1, 1], none⟩) = false) ∧
    parse_collider cex4_resources cex4_shape none [] = .error "invalid shape" ∧
    (cex4_bad.data = .CollisionShape3D cex4_shape ∧ cex4_shape.transform.length = 16) ∧
    spawn_entity cex4_bad Matrix4.identity none cex4_resources empty_state =
      .error "invalid shape" ∧
    spawn_children [cex4_bad, cex4_sibling] Matrix4.identity none cex4_resources empty_state =
      .error "invalid shape" :=
  ⟨⟨rfl, rfl⟩,
   (type_mismatch_panics_whole_walk cex4_resources cex4_shape ⟨.BoxMesh ⟨[1, 1, 1], none⟩⟩
      none [] rfl rfl).1,
   ⟨rfl, by decide⟩,
   ((type_mismatch_panics_whole_walk cex4_resources cex4_shape ⟨.BoxMesh ⟨[1, 1, 1], none⟩⟩
      none [] rfl rfl).2 cex4_bad Matrix4.identity none empty_state [cex4_sibling]
      rfl (by decide)).1,
   ((type_mismatch_panics_whole_walk cex4_resources cex4_shape ⟨.BoxMesh ⟨[1, 1, 1], none⟩⟩
      none [] rfl rfl).2 cex4_bad Matrix4.identity none empty_state [cex4_sibling]
      rfl (by decide)).2⟩

def w5_col_true : Collider :=
  { shape := .ball 1, sensor := true, activeCollisionTypes := .all, activeEvents := .all,
    position := { translation := ⟨0, 0, 0⟩, rotation := fun i j => if i = j then 1 else 0 } }

def w5_col_plain : Collider :=
  { shape := .ball 1, sensor := false, activeCollisionTypes := .default,
    activeEvents := .empty,
    position := { translation := ⟨0, 0, 0⟩, rotation := fun i j => if i = j then 1 else 0 } }

/-- C5 witness (for the amended statement): a boolean `"sensor": true` entry
gives a sensor, event-emitting collider; no entry gives the defaults. -/
theorem sensor_metadata_behavior_witness :
    (parse_collider cex5_resources cex5_shape none [("sensor", Value.bool true)] =
       .ok (some w5_col_true) ∧
     (w5_col_true.sensor = true ∧ w5_col_true.activeCollisionTypes = .all ∧
      w5_col_true.activeEvents = .all)) ∧
    (parse_collider cex5_resources cex5_shape none [] = .ok (some w5_col_plain) ∧
     (w5_col_plain.sensor = false ∧ w5_col_plain.activeCollisionTypes = .default ∧
      w5_col_plain.activeEvents = .empty)) :=
  ⟨⟨rfl, (sensor_metadata_behavior cex5_resources cex5_shape none
      [("sensor", Value.bool true)] w5_col_true rfl).1 true rfl⟩,
   ⟨rfl, (sensor_metadata_behavior cex5_resources cex5_shape none [] w5_col_plain
      rfl).2.1 rfl⟩⟩

/-- A 17-element transform list (one element beyond the 16 the matrix reads). -/
def long17_list : List ℚ := [1, 0, 0, 0, 0, 1, 0, 0, 0, 0, 1, 0, 0, 0, 0, 1, 9]

/-- C6 witness (for the amended statement). -/
theorem malformed_transform_passes_parse_witness :
    WorldEntityJson.parse
        (.mk "leaf" "Node3D" (.obj [("transform", .arr (([1, 2, 3] : List ℚ).map .num))])
          [] none) =
      .ok (.mk "leaf" "Node3D" (.Node3D ⟨[1, 2, 3]⟩) [] none) ∧
    (([1, 2, 3] : List ℚ).length < 16 ∧
     spawn_entity (.mk "leaf" "Node3D" (.Node3D ⟨[1, 2, 3]⟩) [] none) Matrix4.identity none []
         empty_state =
       .error "matrix from_column_slice requires 16 elements") ∧
    (16 ≤ long17_list.length ∧
     get_entity_transform (.mk "leaf" "Node3D" (.Node3D ⟨long17_list⟩) [] none) =
       .ok (some fun i j => long17_list.getD (j.val * 4 + i.val) 0)) :=
  ⟨(malformed_transform_passes_parse "leaf" [] [1, 2, 3]).1,
   ⟨by decide, (malformed_transform_passes_parse "leaf" [] [1, 2, 3]).2.1 (by decide)
      Matrix4.identity none [] empty_state⟩,
   ⟨by decide, (malformed_transform_passes_parse "leaf" [] long17_list).2.2 (by decide)⟩⟩

def w7_shape : CollisionShapeData := ⟨"nores", idmat_list⟩

def w7_entity : WorldEntity := .mk "orphan" "CollisionShape3D" (.CollisionShape3D w7_shape) [] none

/-- C7 witness. -/
theorem missing_resource_skips_only_that_entity_witness :
    (w7_entity.data = .CollisionShape3D w7_shape ∧ w7_shape.transform.length = 16 ∧
     ([] : List (String × WorldResource)).lookup w7_shape.shape = none ∧
     w7_entity.children = none) ∧
    spawn_entity w7_entity Matrix4.identity none [] empty_state = .ok (none, empty_state) ∧
    spawn_children [w7_entity, w2_entity] Matrix4.identity none [] empty_state =
      spawn_children [w2_entity] Matrix4.identity none [] empty_state :=
  ⟨⟨rfl, by decide, rfl, rfl⟩,
   (missing_resource_skips_only_that_entity w7_entity w7_shape Matrix4.identity none []
      empty_state rfl (by decide) rfl rfl).1,
   (missing_resource_skips_only_that_entity w7_entity w7_shape Matrix4.identity none []
      empty_state rfl (by decide) rfl rfl).2 [w2_entity]⟩

def w8_resources : List (String × WorldResource) :=
  [("box", ⟨.BoxCollisionShape ⟨[2, 4, 6]⟩⟩), ("ball", ⟨.SphereCollisionShape ⟨5⟩⟩),
   ("poly", ⟨.ConcavePolygonCollisionShape ⟨[1, 2, 3, 4, 5, 6]⟩⟩)]

/-- C8 witness. -/
theorem collider_shape_from_resource_variant_witness :
    (w8_resources.lookup "box" = some ⟨.BoxCollisionShape ⟨[2, 4, 6]⟩⟩ ∧
     ∃ col, parse_collider w8_resources ⟨"box", idmat_list⟩ none [] = .ok (some col) ∧
       col.shape = .cuboid (2 / 2) (4 / 2) (6 / 2)) ∧
    (w8_resources.lookup "ball" = some ⟨.SphereCollisionShape ⟨5⟩⟩ ∧
     ∃ col, parse_collider w8_resources ⟨"ball", idmat_list⟩ none [] = .ok (some col) ∧
       col.shape = .ball 5) ∧
    (w8_resources.lookup "poly" = some ⟨.ConcavePolygonCollisionShape ⟨[1, 2, 3, 4, 5, 6]⟩⟩ ∧
     (([1, 2, 3, 4, 5, 6] : List ℚ).length % 3 = 0) ∧
     ∃ col, parse_collider w8_resources ⟨"poly", idmat_list⟩ none [] = .ok (some col) ∧
       col.shape = .polyline (spec_chunks3 [1, 2, 3, 4, 5, 6]) none) :=
  ⟨⟨rfl, (collider_shape_from_resource_variant w8_resources ⟨"box", idmat_list⟩ none []).1
      2 4 6 [] rfl⟩,
   ⟨rfl, (collider_shape_from_resource_variant w8_resources ⟨"ball", idmat_list⟩ none []).2.1
      5 rfl⟩,
   ⟨rfl, by decide,
    (collider_shape_from_resource_variant w8_resources ⟨"poly", idmat_list⟩ none []).2.2
      [1, 2, 3, 4, 5, 6] rfl (by decide)⟩⟩

/-- C9 witness. -/
theorem spawn_results_are_bodies_or_colliders_witness :
    (spawn_entity w2_entity Matrix4.identity none [] empty_state =
       .ok (some (.PhysicsBody 0 .Fixed), w2_state) ∧
     (∀ sd, (some (SpawnedWorldEntityData.PhysicsBody 0 .Fixed)) = some sd →
        is_physics_or_collider sd = true) ∧
     (∀ p, p ∈ w2_state.entities → p ∈ empty_state.entities ∨
        is_physics_or_collider p.2.data = true)) ∧
    (load_world_to_rapier w2_world none = .ok w2_state ∧
     is_physics_or_collider ("root", w2_spawned).2.data = true) :=
  ⟨⟨w2_spawn_eq,
    (spawn_results_are_bodies_or_colliders.1 w2_entity Matrix4.identity none [] empty_state
       (some (.PhysicsBody 0 .Fixed)) w2_state w2_spawn_eq).1,
    (spawn_results_are_bodies_or_colliders.1 w2_entity Matrix4.identity none [] empty_state
       (some (.PhysicsBody 0 .Fixed)) w2_state w2_spawn_eq).2⟩,
   ⟨w2_load_eq,
    spawn_results_are_bodies_or_colliders.2 w2_world none w2_state w2_load_eq
      ("root", w2_spawned) (List.Mem.head _)⟩⟩

/-- C10 witness. -/
theorem concave_polygon_indexing_witness :
    ((([1, 2, 3, 4, 5, 6] : List ℚ).length % 3 = 0 ∧
      polylineVerts [1, 2, 3, 4, 5, 6] 0 = .ok (spec_chunks3 [1, 2, 3, 4, 5, 6])) ∧
     (([1, 2] : List ℚ).length % 3 ≠ 0 ∧
      polylineVerts [1, 2] 0 = .error "index out of bounds")) ∧
    parse_collider [("poly", ⟨.ConcavePolygonCollisionShape ⟨[1, 2]⟩⟩)] ⟨"poly", idmat_list⟩
        none [] = .error "index out of bounds" :=
  ⟨⟨⟨by decide, (concave_polygon_indexing [1, 2, 3, 4, 5, 6]).1 (by decide)⟩,
    ⟨by decide, (concave_polygon_indexing [1, 2]).2.1 (by decide)⟩⟩,
   (concave_polygon_indexing [1, 2]).2.2 [("poly", ⟨.ConcavePolygonCollisionShape ⟨[1, 2]⟩⟩)]
     ⟨"poly", idmat_list⟩ none [] rfl (by decide)⟩

end GodotSceneLoader
